import Mathlib

/-!
Verification of the abuse-admission gate of a temporary-email service.

The repository source under scrutiny is `src/backend/src/routes/emails.js`,
whose creation routes compose a rate-limit / CAPTCHA pipeline.  The route
handlers themselves (the reset-on-captcha step and the CAPTCHA_REQUIRED
short-circuit) are embedded directly from that file.  The middleware module
`src/backend/src/middleware/rateLimit.js` (exporting `rateLimitMiddleware`,
`checkCaptchaRequired`, `verifyCaptcha` and `rateLimitStore`) is imported by
the routes but its source is not part of the excerpt, so its operations
(observe, markChallenged, reset, evaluate, identity resolution, verification)
are modelled from the specification where noted.
-/

/-- One counter record of the rate-limit store, per identity key:
`count` attempts since the last reset, the window start timestamp, and the
`captchaRequired` escalation flag. -/
structure CounterRecord where
  count : Nat
  windowStart : Nat
  captchaRequired : Bool
  deriving Repr, DecidableEq

/-- A lookup table from identity keys (IP addresses or user ids) to counter
records, as in `rateLimitStore.limits` / `rateLimitStore.userLimits`. -/
abbrev RecordMap := String → Option CounterRecord

/-- Point update of a lookup table. -/
def updateMap (m : RecordMap) (k : String) (v : Option CounterRecord) : RecordMap :=
  fun x => if x = k then v else m x

/-- The shared rate-limit store as exported by the middleware module:
`limits` keyed by client IP for anonymous callers, `userLimits` keyed by
user id for authenticated callers. -/
structure RateLimitStore where
  limits : RecordMap
  userLimits : RecordMap

/-- The request data the gate-relevant parts of the creation handlers read:
the x-forwarded-for header, the raw connection address, and the optional
CAPTCHA proof token from the request body. -/
structure CreateReq where
  xForwardedFor : Option String
  remoteAddress : String
  captchaResponse : Option String

/-- `req.headers[..x-forwarded-for..] || req.connection.remoteAddress`
(emails.js lines 84 and 311).  JavaScript `||` falls back on an empty
header string as well as on an absent one. -/
def clientIpOf (req : CreateReq) : String :=
  match req.xForwardedFor with
  | some h => if h = "" then req.remoteAddress else h
  | none => req.remoteAddress

/-- The reset-on-captcha step of the public creation route
(emails.js lines 310-317): when a `captchaResponse` is present and the IP
has a record in `rateLimitStore.limits`, set its `count` to 0 and its
`captchaRequired` to false; otherwise leave the table untouched. -/
def publicCreateResetStep (req : CreateReq) (limits : RecordMap) : RecordMap :=
  if req.captchaResponse.isSome then
    match limits (clientIpOf req) with
    | some r =>
        updateMap limits (clientIpOf req)
          (some { r with count := 0, captchaRequired := false })
    | none => limits
  else limits

/-- The reset-on-captcha step of the authenticated creation route
(emails.js lines 83-100): when a `captchaResponse` is present, reset the
per-user record in `userLimits` if `req.user` is set, else the per-IP
record in `limits`; each branch is guarded on the record existing. -/
def createResetStep (user : Option String) (req : CreateReq)
    (s : RateLimitStore) : RateLimitStore :=
  if req.captchaResponse.isSome then
    match user with
    | some uid =>
        match s.userLimits uid with
        | some r =>
            let r2 := { r with count := 0, captchaRequired := false }
            { s with userLimits := updateMap s.userLimits uid (some r2) }
        | none => s
    | none =>
        match s.limits (clientIpOf req) with
        | some r =>
            let r2 := { r with count := 0, captchaRequired := false }
            { s with limits := updateMap s.limits (clientIpOf req) (some r2) }
        | none => s
  else s

/-- Response of the public creation route, as far as the gate is concerned:
either the CAPTCHA challenge payload (emails.js lines 297-304) or the
created-email response. -/
inductive PublicResponse where
  | captchaChallenge (status : Nat) (error : String)
      (captchaRequired : Bool) (captchaSiteKey : String)
  | created (status : Nat)
  deriving Repr, DecidableEq

/-- What `checkCaptchaRequired` left in `res.locals` for the handler:
whether a CAPTCHA is demanded and the public site key. -/
structure Locals where
  captchaRequired : Bool
  captchaSiteKey : String

/-- The gate-relevant body of `router.post(..public-create..)`
(emails.js lines 291-334): if `res.locals.captchaRequired` and no
`captchaResponse` was sent, answer 400 with the structured CAPTCHA payload
and never reach the insertion; otherwise run the reset step and insert the
temp email.  Returns the response, whether a row was inserted, and the
resulting `limits` table. -/
def publicCreateHandler (req : CreateReq) (locals : Locals)
    (limits : RecordMap) : PublicResponse × Bool × RecordMap :=
  if locals.captchaRequired && req.captchaResponse.isNone then
    (PublicResponse.captchaChallenge 400 "CAPTCHA_REQUIRED" true
      locals.captchaSiteKey, false, limits)
  else
    (PublicResponse.created 200, true, publicCreateResetStep req limits)

/-- Modelled from the spec: Identity Resolver (spec 4.1).  The middleware
source is absent from the excerpt; per the spec the key is
the string user-colon-id for an authenticated principal, else
ip-colon-address with the forwarded-for header preferred over the raw
connection address (the address selection matching emails.js line 84). -/
def resolve (user : Option String) (fwd : Option String)
    (remote : String) : String :=
  match user with
  | some uid => "user:" ++ uid
  | none =>
      "ip:" ++ clientIpOf { xForwardedFor := fwd, remoteAddress := remote,
                            captchaResponse := none }

/-- Modelled from the spec: Counter Store observe (spec 4.2), absent
middleware source.  Atomically increments `count` for the key, creating a
fresh all-zero record first if absent, and returns the post-increment
record together with the updated table. -/
def observe (m : RecordMap) (k : String) : CounterRecord × RecordMap :=
  let r :=
    match m k with
    | some r => r
    | none => { count := 0, windowStart := 0, captchaRequired := false }
  let r2 := { r with count := r.count + 1 }
  (r2, updateMap m k (some r2))

/-- Modelled from the spec: Counter Store markChallenged (spec 4.2), absent
middleware source.  Sets `captchaRequired` to true for the record at the
key; a no-op when no record exists (it is only invoked right after an
observe, so the record is present). -/
def markChallenged (m : RecordMap) (k : String) : RecordMap :=
  match m k with
  | some r => updateMap m k (some { r with captchaRequired := true })
  | none => m

/-- Modelled from the spec: Counter Store reset (spec 4.2), absent
middleware source.  Sets `count` to 0 and `captchaRequired` to false for
an existing record; guarded on record existence as in the route-handler
reset code (emails.js lines 89, 95, 313). -/
def storeReset (m : RecordMap) (k : String) : RecordMap :=
  match m k with
  | some r => updateMap m k (some { r with count := 0, captchaRequired := false })
  | none => m

/-- Admission verdicts of the evaluator (spec 4.3). -/
inductive Verdict where
  | Allow
  | Challenge
  | Deny
  deriving Repr, DecidableEq

/-- Policy thresholds (spec 4.3); the claims exercise `challengeThreshold`. -/
structure Policy where
  challengeThreshold : Nat

/-- Modelled from the spec: Admission Evaluator (spec 4.3), absent
middleware source.  A record with `captchaRequired` set is challenged
regardless of count; else a count at or above the threshold is challenged;
else the request is allowed. -/
def evaluate (r : CounterRecord) (p : Policy) : Verdict :=
  if r.captchaRequired then Verdict.Challenge
  else if p.challengeThreshold ≤ r.count then Verdict.Challenge
  else Verdict.Allow

/-- Modelled from the spec: one count-and-evaluate cycle of the Gate
Middleware (spec 4.5 steps 2-3), absent middleware source: observe the
key, evaluate the post-increment record, and on a threshold-crossing
Challenge run the markChallenged side effect (spec 4.3). -/
def gateCycle (p : Policy) (m : RecordMap) (k : String) : Verdict × RecordMap :=
  let (r, m2) := observe m k
  let v := evaluate r p
  match v with
  | Verdict.Challenge => (v, markChallenged m2 k)
  | _ => (v, m2)

/-- Run a sequence of gate cycles, one per listed identity key. -/
def runCycles (p : Policy) (ks : List String) (m : RecordMap) : RecordMap :=
  match ks with
  | [] => m
  | k :: rest => runCycles p rest (gateCycle p m k).2

/-- The `captchaRequired` flag stored at a key (false when absent). -/
def flagAt (m : RecordMap) (k : String) : Bool :=
  match m k with
  | some r => r.captchaRequired
  | none => false

/-- The `count` stored at a key (0 when absent). -/
def countAt (m : RecordMap) (k : String) : Nat :=
  match m k with
  | some r => r.count
  | none => 0

/-- Modelled from the spec: outcomes of the external challenge-verification
oracle (spec 4.4 and 7), absent middleware source: success, rejection, a
service error, or a timeout. -/
inductive VerifyOutcome where
  | verified
  | rejected
  | serviceError
  | timeout
  deriving Repr, DecidableEq

/-- Modelled from the spec: the boolean the gate extracts from the oracle
(spec 7) — a service error or timeout is treated exactly as a rejection
(fail safe, never fail open). -/
def verifyOk (o : VerifyOutcome) : Bool :=
  match o with
  | VerifyOutcome.verified => true
  | _ => false

/-- Result of the verification step as seen by the pipeline (spec 4.4):
either control proceeds to the creation handler, or the request fails with
an explicit verification error. -/
inductive GateResult where
  | proceed
  | verificationFailed
  deriving Repr, DecidableEq

/-- Modelled from the spec: Challenge Coordinator verify-and-reset step
(spec 4.4), absent middleware source.  On a verified proof the store is
reset for the caller and control proceeds; on any other outcome the
request fails with an explicit error and the store is untouched. -/
def verifyStep (o : VerifyOutcome) (k : String) (m : RecordMap) :
    GateResult × RecordMap :=
  if verifyOk o then (GateResult.proceed, storeReset m k)
  else (GateResult.verificationFailed, m)

/-- Observe a key repeatedly, collecting the post-increment counts each
call returns (the trace of one identity being hammered by N requests). -/
def iterObserve : Nat → String → RecordMap → List Nat × RecordMap
  | 0, _, m => ([], m)
  | n + 1, k, m =>
      let (r, m2) := observe m k
      let (rest, m3) := iterObserve n k m2
      (r.count :: rest, m3)

/-- Run n gate cycles for one identity key, collecting the verdicts. -/
def cycleTrace : Nat → Policy → String → RecordMap → List Verdict × RecordMap
  | 0, _, _, m => ([], m)
  | n + 1, p, k, m =>
      let (v, m2) := gateCycle p m k
      let (rest, m3) := cycleTrace n p k m2
      (v :: rest, m3)

/-! ## Theorems -/

/-- Claim C1: for every identity key and every prior counter state, after a
successful challenge verification (a `captchaResponse` accepted by the
`verifyCaptcha` middleware, hence present on the request) the reset step of
both creation routes leaves the record with `count = 0` and
`captchaRequired = false`. -/
theorem reset_clears_record (req : CreateReq) (s : RateLimitStore)
    (uid : String) (ru rip : CounterRecord)
    (hres : req.captchaResponse.isSome = true)
    (hu : s.userLimits uid = some ru)
    (hip : s.limits (clientIpOf req) = some rip) :
    countAt (publicCreateResetStep req s.limits) (clientIpOf req) = 0 ∧
    flagAt (publicCreateResetStep req s.limits) (clientIpOf req) = false ∧
    countAt (createResetStep (some uid) req s).userLimits uid = 0 ∧
    flagAt (createResetStep (some uid) req s).userLimits uid = false := by
  simp [publicCreateResetStep, createResetStep, hres, hu, hip, updateMap,
    countAt, flagAt]

theorem reset_clears_record_witness :
    countAt
      (publicCreateResetStep
        { xForwardedFor := none, remoteAddress := "1.2.3.4",
          captchaResponse := some "tok" }
        (RateLimitStore.limits
          { limits := fun k => if k = "1.2.3.4" then
              some { count := 7, windowStart := 0, captchaRequired := true }
            else none,
            userLimits := fun k => if k = "u1" then
              some { count := 9, windowStart := 0, captchaRequired := true }
            else none }))
      (clientIpOf
        { xForwardedFor := none, remoteAddress := "1.2.3.4",
          captchaResponse := some "tok" }) = 0 ∧
    flagAt
      (publicCreateResetStep
        { xForwardedFor := none, remoteAddress := "1.2.3.4",
          captchaResponse := some "tok" }
        (RateLimitStore.limits
          { limits := fun k => if k = "1.2.3.4" then
              some { count := 7, windowStart := 0, captchaRequired := true }
            else none,
            userLimits := fun k => if k = "u1" then
              some { count := 9, windowStart := 0, captchaRequired := true }
            else none }))
      (clientIpOf
        { xForwardedFor := none, remoteAddress := "1.2.3.4",
          captchaResponse := some "tok" }) = false ∧
    countAt
      (createResetStep (some "u1")
        { xForwardedFor := none, remoteAddress := "1.2.3.4",
          captchaResponse := some "tok" }
        { limits := fun k => if k = "1.2.3.4" then
            some { count := 7, windowStart := 0, captchaRequired := true }
          else none,
          userLimits := fun k => if k = "u1" then
            some { count := 9, windowStart := 0, captchaRequired := true }
          else none }).userLimits "u1" = 0 ∧
    flagAt
      (createResetStep (some "u1")
        { xForwardedFor := none, remoteAddress := "1.2.3.4",
          captchaResponse := some "tok" }
        { limits := fun k => if k = "1.2.3.4" then
            some { count := 7, windowStart := 0, captchaRequired := true }
          else none,
          userLimits := fun k => if k = "u1" then
            some { count := 9, windowStart := 0, captchaRequired := true }
          else none }).userLimits "u1" = false :=
  reset_clears_record
    { xForwardedFor := none, remoteAddress := "1.2.3.4",
      captchaResponse := some "tok" }
    { limits := fun k => if k = "1.2.3.4" then
        some { count := 7, windowStart := 0, captchaRequired := true }
      else none,
      userLimits := fun k => if k = "u1" then
        some { count := 9, windowStart := 0, captchaRequired := true }
      else none }
    "u1"
    { count := 9, windowStart := 0, captchaRequired := true }
    { count := 7, windowStart := 0, captchaRequired := true }
    rfl rfl rfl

/-- Claim C3: on a Challenge verdict (`res.locals.captchaRequired` set by
the gate) with no proof token on the request, the public creation route
short-circuits with status 400 (a 4xx-class status) and the structured
payload carrying error CAPTCHA_REQUIRED, captchaRequired true and the
site key; no temp email is inserted and the limits table is untouched. -/
theorem challenge_short_circuit (req : CreateReq) (locals : Locals)
    (limits : RecordMap)
    (hloc : locals.captchaRequired = true)
    (htok : req.captchaResponse = none) :
    publicCreateHandler req locals limits =
      (PublicResponse.captchaChallenge 400 "CAPTCHA_REQUIRED" true
        locals.captchaSiteKey, false, limits) ∧
    400 / 100 = 4 := by
  simp [publicCreateHandler, hloc, htok]

theorem challenge_short_circuit_witness :
    publicCreateHandler
      { xForwardedFor := none, remoteAddress := "1.2.3.4",
        captchaResponse := none }
      { captchaRequired := true, captchaSiteKey := "site-key" }
      (fun _ => none) =
      (PublicResponse.captchaChallenge 400 "CAPTCHA_REQUIRED" true
        "site-key", false, fun _ => none) ∧
    400 / 100 = 4 :=
  challenge_short_circuit
    { xForwardedFor := none, remoteAddress := "1.2.3.4",
      captchaResponse := none }
    { captchaRequired := true, captchaSiteKey := "site-key" }
    (fun _ => none) rfl rfl

/-- Claim C9: the authenticated creation route runs behind
`authenticateToken`, so `req.user` is present in the handler; with a
present user the reset step never takes the anonymous branch: the per-IP
`limits` table is unchanged and only the user's own `userLimits` entry can
change. -/
theorem authed_reset_confined (uid : String) (req : CreateReq)
    (s : RateLimitStore) :
    (createResetStep (some uid) req s).limits = s.limits ∧
    ∀ k, k ≠ uid →
      (createResetStep (some uid) req s).userLimits k = s.userLimits k := by
  constructor
  · unfold createResetStep
    cases hres : req.captchaResponse.isSome
    · simp
    · cases hu : s.userLimits uid <;> simp [hu]
  · intro k hk
    unfold createResetStep
    cases hres : req.captchaResponse.isSome
    · simp
    · cases hu : s.userLimits uid <;> simp [hu, updateMap, hk]

theorem authed_reset_confined_witness :
    (createResetStep (some "u1")
      { xForwardedFor := none, remoteAddress := "1.2.3.4",
        captchaResponse := some "tok" }
      { limits := fun _ => none,
        userLimits := fun k => if k = "u1" then
          some { count := 3, windowStart := 0, captchaRequired := true }
        else none }).limits =
      RateLimitStore.limits
        { limits := fun _ => none,
          userLimits := fun k => if k = "u1" then
            some { count := 3, windowStart := 0, captchaRequired := true }
          else none } ∧
    (createResetStep (some "u1")
      { xForwardedFor := none, remoteAddress := "1.2.3.4",
        captchaResponse := some "tok" }
      { limits := fun _ => none,
        userLimits := fun k => if k = "u1" then
          some { count := 3, windowStart := 0, captchaRequired := true }
        else none }).userLimits "u2" =
      RateLimitStore.userLimits
        { limits := fun _ => none,
          userLimits := fun k => if k = "u1" then
            some { count := 3, windowStart := 0, captchaRequired := true }
          else none } "u2" :=
  ⟨(authed_reset_confined "u1"
      { xForwardedFor := none, remoteAddress := "1.2.3.4",
        captchaResponse := some "tok" }
      { limits := fun _ => none,
        userLimits := fun k => if k = "u1" then
          some { count := 3, windowStart := 0, captchaRequired := true }
        else none }).1,
   (authed_reset_confined "u1"
      { xForwardedFor := none, remoteAddress := "1.2.3.4",
        captchaResponse := some "tok" }
      { limits := fun _ => none,
        userLimits := fun k => if k = "u1" then
          some { count := 3, windowStart := 0, captchaRequired := true }
        else none }).2 "u2" (by decide)⟩

/-- Claim C10: when the identity has no record in the store, the
reset-on-captcha step of either creation route is a no-op on the store —
the record-absent guard is taken and reset never creates a record. -/
theorem reset_absent_noop (req : CreateReq) (uid : String)
    (s : RateLimitStore)
    (hip : s.limits (clientIpOf req) = none)
    (hu : s.userLimits uid = none) :
    publicCreateResetStep req s.limits = s.limits ∧
    createResetStep (some uid) req s = s ∧
    createResetStep none req s = s := by
  unfold publicCreateResetStep createResetStep
  cases req.captchaResponse.isSome <;> simp [hip, hu]

theorem reset_absent_noop_witness :
    publicCreateResetStep
      { xForwardedFor := none, remoteAddress := "1.2.3.4",
        captchaResponse := some "tok" }
      (RateLimitStore.limits { limits := fun _ => none,
                               userLimits := fun _ => none }) =
      RateLimitStore.limits { limits := fun _ => none,
                              userLimits := fun _ => none } ∧
    createResetStep (some "u1")
      { xForwardedFor := none, remoteAddress := "1.2.3.4",
        captchaResponse := some "tok" }
      { limits := fun _ => none, userLimits := fun _ => none } =
      { limits := fun _ => none, userLimits := fun _ => none } ∧
    createResetStep none
      { xForwardedFor := none, remoteAddress := "1.2.3.4",
        captchaResponse := some "tok" }
      { limits := fun _ => none, userLimits := fun _ => none } =
      { limits := fun _ => none, userLimits := fun _ => none } :=
  reset_absent_noop
    { xForwardedFor := none, remoteAddress := "1.2.3.4",
      captchaResponse := some "tok" }
    "u1"
    { limits := fun _ => none, userLimits := fun _ => none }
    rfl rfl

/-- Observing any key leaves every captchaRequired flag as it was. -/
theorem flagAt_observe (m : RecordMap) (k k0 : String) :
    flagAt (observe m k0).2 k = flagAt m k := by
  unfold observe flagAt updateMap
  by_cases hk : k = k0
  · subst hk
    cases h : m k <;> simp [h]
  · cases h : m k0 <;> simp [h, hk]

/-- markChallenged never clears a captchaRequired flag that was set. -/
theorem flagAt_markChallenged (m : RecordMap) (k k0 : String)
    (h : flagAt m k = true) : flagAt (markChallenged m k0) k = true := by
  unfold markChallenged
  cases h0 : m k0
  · exact h
  · by_cases hk : k = k0
    · subst hk
      simp [flagAt, updateMap]
    · simpa [flagAt, updateMap, hk] using h

/-- One gate cycle never clears a captchaRequired flag that was set. -/
theorem flagAt_gateCycle (p : Policy) (m : RecordMap) (k k0 : String)
    (h : flagAt m k = true) : flagAt (gateCycle p m k0).2 k = true := by
  unfold gateCycle
  have h2 : flagAt (observe m k0).2 k = true := by
    rw [flagAt_observe]; exact h
  cases hv : evaluate (observe m k0).1 p <;>
    simp [hv, h2, flagAt_markChallenged _ _ _ h2]

/-- No sequence of gate cycles clears a captchaRequired flag that was set. -/
theorem flagAt_runCycles (p : Policy) (ks : List String) (m : RecordMap)
    (k : String) (h : flagAt m k = true) :
    flagAt (runCycles p ks m) k = true := by
  induction ks generalizing m with
  | nil => exact h
  | cons k0 rest ih => exact ih _ (flagAt_gateCycle p m k k0 h)

/-- Claim C2: a record with captchaRequired true is challenged by evaluate
regardless of its count, and a set flag persists across any number of
subsequent gate cycles (on any identity keys) until an explicit reset. -/
theorem captcha_flag_challenge_persists (r : CounterRecord) (p : Policy)
    (ks : List String) (m : RecordMap) (k : String)
    (hr : r.captchaRequired = true) (hm : flagAt m k = true) :
    evaluate r p = Verdict.Challenge ∧
    flagAt (runCycles p ks m) k = true :=
  ⟨by simp [evaluate, hr], flagAt_runCycles p ks m k hm⟩

theorem captcha_flag_challenge_persists_witness :
    evaluate { count := 0, windowStart := 0, captchaRequired := true }
      { challengeThreshold := 5 } = Verdict.Challenge ∧
    flagAt
      (runCycles { challengeThreshold := 5 } ["ip:a", "ip:b", "ip:a"]
        (fun k => if k = "ip:a" then
          some { count := 9, windowStart := 0, captchaRequired := true }
        else none))
      "ip:a" = true :=
  captcha_flag_challenge_persists
    { count := 0, windowStart := 0, captchaRequired := true }
    { challengeThreshold := 5 }
    ["ip:a", "ip:b", "ip:a"]
    (fun k => if k = "ip:a" then
      some { count := 9, windowStart := 0, captchaRequired := true }
    else none)
    "ip:a" rfl rfl

/-- Claim C4: on a fresh identity with challengeThreshold 5, the first
four count-and-evaluate cycles yield Allow and the fifth yields Challenge
and sets captchaRequired to true. -/
theorem fresh_identity_five_cycles (k : String) (m : RecordMap)
    (hm : m k = none) :
    (cycleTrace 5 { challengeThreshold := 5 } k m).1 =
      [Verdict.Allow, Verdict.Allow, Verdict.Allow, Verdict.Allow,
       Verdict.Challenge] ∧
    flagAt (cycleTrace 5 { challengeThreshold := 5 } k m).2 k = true := by
  simp [cycleTrace, gateCycle, observe, evaluate, markChallenged, updateMap,
    flagAt, hm]

theorem fresh_identity_five_cycles_witness :
    (cycleTrace 5 { challengeThreshold := 5 } "ip:7.7.7.7"
      (fun _ => none)).1 =
      [Verdict.Allow, Verdict.Allow, Verdict.Allow, Verdict.Allow,
       Verdict.Challenge] ∧
    flagAt (cycleTrace 5 { challengeThreshold := 5 } "ip:7.7.7.7"
      (fun _ => none)).2 "ip:7.7.7.7" = true :=
  fresh_identity_five_cycles "ip:7.7.7.7" (fun _ => none) rfl

/-- Claim C5: a rejected challenge proof, and equally an erroring or
timed-out verification service, makes the request fail with an explicit
verification error while the store is left unchanged; the unavailable
service is treated exactly as a rejection, never propagated as a fault. -/
theorem failed_verification_unchanged (o : VerifyOutcome) (k : String)
    (m : RecordMap) (h : verifyOk o = false) :
    verifyStep o k m = (GateResult.verificationFailed, m) ∧
    verifyStep VerifyOutcome.serviceError k m =
      verifyStep VerifyOutcome.rejected k m ∧
    verifyStep VerifyOutcome.timeout k m =
      verifyStep VerifyOutcome.rejected k m := by
  refine ⟨?_, rfl, rfl⟩
  simp [verifyStep, h]

theorem failed_verification_unchanged_witness :
    verifyStep VerifyOutcome.rejected "ip:a" (fun _ => none) =
      (GateResult.verificationFailed, fun _ => none) ∧
    verifyStep VerifyOutcome.serviceError "ip:a" (fun _ => none) =
      verifyStep VerifyOutcome.rejected "ip:a" (fun _ => none) ∧
    verifyStep VerifyOutcome.timeout "ip:a" (fun _ => none) =
      verifyStep VerifyOutcome.rejected "ip:a" (fun _ => none) :=
  failed_verification_unchanged VerifyOutcome.rejected "ip:a"
    (fun _ => none) rfl

/-- Claim C7: identity resolution yields the user-prefixed key for an
authenticated principal, else the ip-prefixed key from the forwarded-for
header when one is present (and non-empty, matching the JavaScript truthy
test), else from the raw connection address; it is a total function of the
request fields, so it never fails and repeated resolutions within one
request return the same key. -/
theorem resolve_identity_key (uid hdr remote : String) (fwd : Option String)
    (hne : hdr ≠ "") :
    resolve (some uid) fwd remote = "user:" ++ uid ∧
    resolve none (some hdr) remote = "ip:" ++ hdr ∧
    resolve none none remote = "ip:" ++ remote := by
  refine ⟨rfl, ?_, rfl⟩
  simp [resolve, clientIpOf, hne]

theorem resolve_identity_key_witness :
    resolve (some "u1") none "1.1.1.1" = "user:" ++ "u1" ∧
    resolve none (some "9.9.9.9") "1.1.1.1" = "ip:" ++ "9.9.9.9" ∧
    resolve none none "1.1.1.1" = "ip:" ++ "1.1.1.1" :=
  resolve_identity_key "u1" "9.9.9.9" "1.1.1.1" none (by decide)

/-- Each observe call returns the post-increment count, so n calls on one
key return the trace count+1, ..., count+n and leave the count n higher. -/
theorem iterObserve_trace (n : Nat) (k : String) (m : RecordMap) :
    (iterObserve n k m).1 = List.range' (countAt m k + 1) n ∧
    countAt (iterObserve n k m).2 k = countAt m k + n := by
  induction n generalizing m with
  | zero => simp [iterObserve]
  | succ n ih =>
      have hobs : countAt (observe m k).2 k = countAt m k + 1 := by
        unfold observe countAt updateMap
        cases h : m k <;> simp [h]
      have hcnt : (observe m k).1.count = countAt m k + 1 := by
        unfold observe countAt
        cases h : m k <;> simp [h]
      unfold iterObserve
      rcases ih (observe m k).2 with ⟨h1, h2⟩
      constructor
      · simp [hcnt, h1, hobs, List.range'_succ]
      · simp [h2, hobs]
        omega

/-- Claim C8: with the increment embedded as one atomic step (the spec's
concurrency requirement for the Counter Store), any serialization of N
observe invocations on the same fresh key yields a final count of exactly
N, and the values the N callers observe are the distinct post-increment
counts 1..N — no two callers see the same pre-increment state. -/
theorem observe_no_lost_increments (n : Nat) (k : String) (m : RecordMap)
    (hm : m k = none) :
    countAt (iterObserve n k m).2 k = n ∧
    (iterObserve n k m).1 = List.range' 1 n ∧
    (iterObserve n k m).1.Nodup := by
  have h0 : countAt m k = 0 := by simp [countAt, hm]
  rcases iterObserve_trace n k m with ⟨h1, h2⟩
  refine ⟨by simpa [h0] using h2, by simpa [h0] using h1, ?_⟩
  rw [h1, h0]
  exact List.nodup_range' 1 n

theorem observe_no_lost_increments_witness :
    countAt (iterObserve 4 "ip:a" (fun _ => none)).2 "ip:a" = 4 ∧
    (iterObserve 4 "ip:a" (fun _ => none)).1 = List.range' 1 4 ∧
    (iterObserve 4 "ip:a" (fun _ => none)).1.Nodup :=
  observe_no_lost_increments 4 "ip:a" (fun _ => none) rfl
